import Mathlib

/-!
Verification of the challenge submission screen
(`ChallengeSubmissionPage.tsx` of the Bondz repository).

The core logic of the screen consists of two pure pieces plus a small
submission lifecycle:

* `getChallengeTheme` — the Theme Resolver: maps a challenge title to a
  bundle of display copy by case-insensitive keyword matching, first
  match wins;
* `buildSubmission` — the Submission Builder: validates the draft
  (`EmptySubmission` when trimmed text is empty and no image is truthy)
  and otherwise assembles a `ChallengeSubmission` record;
* `step` / `run` — the event-driven lifecycle of the screen
  (idle / submitting / closed, with the submit control disabled while a
  submission is in flight).

Strings are modelled on `String` (a packed `List Char` in this
toolchain); JavaScript `toLowerCase`, `trim`, `includes` and string
truthiness are embedded explicitly below.
-/

/-- Model of JavaScript `String.prototype.toLowerCase` as used by the
resolver (titles and keywords are basic-latin, where `Char.toLower`
agrees with JavaScript). -/
def toLowerStr (s : String) : String :=
  ⟨s.data.map Char.toLower⟩

/-- True when the second list is an initial segment of the first (`charsStartWith l pat`). -/
def charsStartWith : List Char → List Char → Bool
  | _, [] => true
  | [], _ :: _ => false
  | a :: as, b :: bs => a == b && charsStartWith as bs

/-- Model of JavaScript `String.prototype.includes`: `sub` occurs as a
contiguous substring of `s` at some position. -/
def strIncludes (s sub : String) : Bool :=
  (List.range (s.data.length + 1)).any fun i => charsStartWith (s.data.drop i) sub.data

/-- Model of JavaScript `String.prototype.trim`: strip whitespace from
both ends. -/
def trimStr (s : String) : String :=
  ⟨((s.data.dropWhile Char.isWhitespace).reverse.dropWhile Char.isWhitespace).reverse⟩

/-- JavaScript truthiness of a string: the empty string is falsy. -/
def jsTruthyStr (s : String) : Bool :=
  !s.data.isEmpty

/-- JavaScript truthiness of a nullable string (`string | null`):
`null` and the empty string are falsy. -/
def jsTruthyOptStr : Option String → Bool
  | none => false
  | some s => jsTruthyStr s

/-- The themed copy bundle returned by the Theme Resolver
(`ThemeCopy` in the specification). -/
structure ThemeCopy where
  submitTitle : String
  inputLabel : String
  placeholder : String
  individualTips : String
  teamTips : String
deriving DecidableEq, Repr

/-- Theme for titles matching `peace` / `meditation` / `mindful`. -/
def peaceTheme : ThemeCopy where
  submitTitle := "Share Your Peaceful Moment"
  inputLabel := "Describe your peaceful experience"
  placeholder := "Tell the community about your peaceful moment... How did it make you feel?"
  individualTips := "• Share what brought you inner peace\n• Describe the emotions you felt\n• Inspire others to find their own calm"
  teamTips := "• Share how your team found peace together\n• Describe your collective experience\n• Inspire other groups to find harmony"

/-- Theme for titles matching `adventure` / `explore` / `journey`. -/
def adventureTheme : ThemeCopy where
  submitTitle := "Share Your Adventure"
  inputLabel := "Tell us about your adventure"
  placeholder := "Share your exciting adventure... What made it memorable?"
  individualTips := "• Describe the highlights of your journey\n• Share what you discovered about yourself\n• Inspire others to explore new horizons"
  teamTips := "• Share how your team conquered the adventure\n• Describe your teamwork moments\n• Inspire other groups to explore together"

/-- Theme for titles matching `gratitude` / `thankful` / `appreciate`. -/
def gratitudeTheme : ThemeCopy where
  submitTitle := "Share What You\x27re Grateful For"
  inputLabel := "Express your gratitude"
  placeholder := "Share what filled your heart with gratitude today..."
  individualTips := "• Reflect on what truly matters to you\n• Share specific moments of appreciation\n• Inspire others to find gratitude in their lives"
  teamTips := "• Share what your team is collectively grateful for\n• Describe moments of shared appreciation\n• Inspire other groups to practice gratitude together"

/-- Theme for titles matching `creative` / `art` / `create`. -/
def creativeTheme : ThemeCopy where
  submitTitle := "Share Your Creative Expression"
  inputLabel := "Describe your creative process"
  placeholder := "Tell us about your creative journey... What inspired you?"
  individualTips := "• Share your creative inspiration\n• Describe your artistic process\n• Inspire others to express their creativity"
  teamTips := "• Share how your team created together\n• Describe your collaborative process\n• Inspire other groups to create as one"

/-- Theme for titles matching `fitness` / `workout` / `health`. -/
def fitnessTheme : ThemeCopy where
  submitTitle := "Share Your Wellness Journey"
  inputLabel := "Describe your wellness experience"
  placeholder := "Tell us about your wellness moment... How did it energize you?"
  individualTips := "• Share how this boosted your wellbeing\n• Describe the energy you gained\n• Inspire others to prioritize their health"
  teamTips := "• Share how your team motivated each other\n• Describe your collective energy\n• Inspire other groups to get active together"

/-- The generic fallback theme for titles matching no keyword group. -/
def genericTheme : ThemeCopy where
  submitTitle := "Share Your Experience"
  inputLabel := "Tell us about your experience"
  placeholder := "Share your meaningful moment with the community..."
  individualTips := "• Share what made this moment special\n• Describe how it impacted you\n• Inspire others to try this challenge"
  teamTips := "• Share how your team experienced this together\n• Describe your collective journey\n• Inspire other groups to join the challenge"

/-- The Theme Resolver (`getChallengeTheme`, ChallengeSubmissionPage.tsx
lines 49–101): lower-case the title once, then chained `includes`
tests in source order, falling through to the generic theme. -/
def getChallengeTheme (challengeTitle : String) : ThemeCopy :=
  let title := toLowerStr challengeTitle
  if strIncludes title "peace" || strIncludes title "meditation" || strIncludes title "mindful" then
    peaceTheme
  else if strIncludes title "adventure" || strIncludes title "explore" || strIncludes title "journey" then
    adventureTheme
  else if strIncludes title "gratitude" || strIncludes title "thankful" || strIncludes title "appreciate" then
    gratitudeTheme
  else if strIncludes title "creative" || strIncludes title "art" || strIncludes title "create" then
    creativeTheme
  else if strIncludes title "fitness" || strIncludes title "workout" || strIncludes title "health" then
    fitnessTheme
  else
    genericTheme

/-- Participation mode of a submission (`individual` or `team` in the source union type). -/
inductive ParticipationType where
  | individual
  | team
deriving DecidableEq, Repr

/-- Modelled from the spec: the external `ChallengeCard` record consumed
read-only by the screen (its declaration lives in `types/challenge`,
outside this fragment): identifier, title, subtitle, short icon/emoji
string, and a gradient colour pair. Only `id`, `title` and `image` feed
the Submission Builder. -/
structure ChallengeCard where
  id : Int
  title : String
  subtitle : String
  image : String
  gradient : List String
deriving DecidableEq, Repr

/-- Author descriptor of a submission. -/
structure Author where
  name : String
  avatar : String
  username : String
deriving DecidableEq, Repr

/-- The durable output record (`ChallengeSubmission`,
ChallengeSubmissionPage.tsx lines 29–46). `timestamp` is the wall-clock
reading in milliseconds (the `Date` object of the source). -/
structure ChallengeSubmission where
  id : String
  challengeId : Int
  challengeTitle : String
  challengeIcon : String
  text : String
  image : Option String
  timestamp : Nat
  author : Author
  likes : Nat
  comments : Nat
  shares : Nat
  participationType : ParticipationType
deriving DecidableEq, Repr

/-- The fixed placeholder author used for every submission
(ChallengeSubmissionPage.tsx lines 166–170). -/
def placeholderAuthor : Author where
  name := "You"
  avatar := "https://images.unsplash.com/photo-1472099645785-5658abf4ff4e?w=100&h=100&fit=crop&crop=face"
  username := "@you"

/-- The record constructed on the success path of `handleSubmit`
(ChallengeSubmissionPage.tsx lines 158–175). `now` models the
wall-clock reading taken at construction time: `Date.now()` feeds the
identifier and `new Date()` the timestamp, both reads of the same
clock at the same instant. `image: selectedImage || undefined` maps a
falsy (`null` or empty) reference to an absent field. -/
def mkSubmission (challenge : ChallengeCard) (participationType : ParticipationType)
    (text : String) (selectedImage : Option String) (now : Nat) : ChallengeSubmission where
  id := toString now
  challengeId := challenge.id
  challengeTitle := challenge.title
  challengeIcon := challenge.image
  text := trimStr text
  image := if jsTruthyOptStr selectedImage then selectedImage else none
  timestamp := now
  author := placeholderAuthor
  likes := 0
  comments := 0
  shares := 0
  participationType := participationType

/-- The Submission Builder: the validation guard of `handleSubmit`
(ChallengeSubmissionPage.tsx lines 150–153, `!text.trim() &&
!selectedImage`) followed by record construction. `none` models the
`EmptySubmission` rejection, where the function returns before any
identifier or timestamp is produced. -/
def buildSubmission (challenge : ChallengeCard) (participationType : ParticipationType)
    (text : String) (selectedImage : Option String) (now : Nat) :
    Option ChallengeSubmission :=
  if !jsTruthyStr (trimStr text) && !jsTruthyOptStr selectedImage then
    none
  else
    some (mkSubmission challenge participationType text selectedImage now)

/-- Observable effects of a lifecycle step: the user-facing alerts and
the calls to the external collaborators `onSubmit` and `onClose`. -/
inductive Effect where
  | alertEmpty
  | alertSuccess
  | alertError
  | callOnSubmit (s : ChallengeSubmission)
  | callOnClose
deriving DecidableEq, Repr

/-- Screen state: the draft (`text`, `selectedImage`), the
`isSubmitting` flag that disables the submit control, whether `onClose`
has dismissed the screen, and the list of dispatched, not yet completed
submissions (the in-flight queue; the code keeps at most one, which is
what the lifecycle theorems establish). -/
structure Screen where
  text : String
  selectedImage : Option String
  isSubmitting : Bool
  closed : Bool
  inFlight : List ChallengeSubmission
deriving DecidableEq, Repr

/-- State of the screen when it opens (`useState` initialisers,
ChallengeSubmissionPage.tsx lines 104–106). -/
def initScreen : Screen where
  text := ""
  selectedImage := none
  isSubmitting := false
  closed := false
  inFlight := []

/-- Discrete events driving the screen: draft edits, the close button,
pressing the submit control (`now` is the wall-clock reading if a
record is built), and completion of an in-flight submission by the
external acceptance collaborator (success or failure). -/
inductive Event where
  | setText (s : String)
  | setImage (img : Option String)
  | pressClose
  | pressSubmit (now : Nat)
  | acceptOk
  | acceptFail
deriving DecidableEq, Repr

/-- One step of the screen lifecycle. `pressSubmit` is ignored while
`isSubmitting` (the control is rendered with `disabled={isSubmitting}`,
line 204) or after dismissal; an invalid draft alerts and returns
before building anything (lines 150–153); a valid draft dispatches the
built record. `acceptOk` models lines 177–180 and the `finally` block
(`onSubmit`, success alert, `onClose`, `setIsSubmitting(false)`);
`acceptFail` models the `catch`/`finally` path (lines 181–185): error
alert, draft untouched, screen not dismissed. -/
def step (challenge : ChallengeCard) (participationType : ParticipationType)
    (st : Screen) : Event → Screen × List Effect
  | Event.setText s =>
      if st.closed then (st, []) else ({ st with text := s }, [])
  | Event.setImage img =>
      if st.closed then (st, []) else ({ st with selectedImage := img }, [])
  | Event.pressClose =>
      if st.closed then (st, []) else ({ st with closed := true }, [Effect.callOnClose])
  | Event.pressSubmit now =>
      if st.closed || st.isSubmitting then
        (st, [])
      else if !jsTruthyStr (trimStr st.text) && !jsTruthyOptStr st.selectedImage then
        (st, [Effect.alertEmpty])
      else
        ({ st with
            isSubmitting := true
            inFlight := st.inFlight ++
              [mkSubmission challenge participationType st.text st.selectedImage now] }, [])
  | Event.acceptOk =>
      match st.inFlight with
      | [] => (st, [])
      | s :: rest =>
          ({ st with isSubmitting := false, closed := true, inFlight := rest },
           [Effect.callOnSubmit s, Effect.alertSuccess, Effect.callOnClose])
  | Event.acceptFail =>
      match st.inFlight with
      | [] => (st, [])
      | s :: rest =>
          ({ st with isSubmitting := false, inFlight := rest },
           [Effect.callOnSubmit s, Effect.alertError])

/-- The screen state reached from the initial state after a sequence of
events. -/
def run (challenge : ChallengeCard) (participationType : ParticipationType)
    (es : List Event) : Screen :=
  es.foldl (fun st e => (step challenge participationType st e).1) initScreen

/-- Keyword group 1 of the priority order of the resolver. -/
def peaceKeywords : List String := ["peace", "meditation", "mindful"]

/-- Keyword group 2 of the priority order of the resolver. -/
def adventureKeywords : List String := ["adventure", "explore", "journey"]

/-- Keyword group 3 of the priority order of the resolver. -/
def gratitudeKeywords : List String := ["gratitude", "thankful", "appreciate"]

/-- Keyword group 4 of the priority order of the resolver. -/
def creativeKeywords : List String := ["creative", "art", "create"]

/-- Keyword group 5 of the priority order of the resolver. -/
def fitnessKeywords : List String := ["fitness", "workout", "health"]

/-- A title matches a keyword group when some keyword of the group
occurs (case-insensitively) as a substring of the title. -/
def groupMatch (title : String) (kws : List String) : Bool :=
  kws.any fun k => strIncludes (toLowerStr title) k

/-- The keyword table of the resolver in its fixed priority order
(peace, adventure, gratitude, creative, fitness). -/
def themeTable : List (List String × ThemeCopy) :=
  [(peaceKeywords, peaceTheme),
   (adventureKeywords, adventureTheme),
   (gratitudeKeywords, gratitudeTheme),
   (creativeKeywords, creativeTheme),
   (fitnessKeywords, fitnessTheme)]

/-- The themes of all keyword groups a title matches, in priority
order. -/
def matchingGroups (title : String) : List ThemeCopy :=
  (themeTable.filter fun p => groupMatch title p.1).map fun p => p.2

theorem groupMatch_peace (t : String) :
    (strIncludes (toLowerStr t) "peace" || strIncludes (toLowerStr t) "meditation" ||
      strIncludes (toLowerStr t) "mindful") = groupMatch t peaceKeywords := by
  cases h1 : strIncludes (toLowerStr t) "peace" <;>
    cases h2 : strIncludes (toLowerStr t) "meditation" <;>
      cases h3 : strIncludes (toLowerStr t) "mindful" <;>
        simp [groupMatch, peaceKeywords, h1, h2, h3]

theorem groupMatch_adventure (t : String) :
    (strIncludes (toLowerStr t) "adventure" || strIncludes (toLowerStr t) "explore" ||
      strIncludes (toLowerStr t) "journey") = groupMatch t adventureKeywords := by
  cases h1 : strIncludes (toLowerStr t) "adventure" <;>
    cases h2 : strIncludes (toLowerStr t) "explore" <;>
      cases h3 : strIncludes (toLowerStr t) "journey" <;>
        simp [groupMatch, adventureKeywords, h1, h2, h3]

theorem groupMatch_gratitude (t : String) :
    (strIncludes (toLowerStr t) "gratitude" || strIncludes (toLowerStr t) "thankful" ||
      strIncludes (toLowerStr t) "appreciate") = groupMatch t gratitudeKeywords := by
  cases h1 : strIncludes (toLowerStr t) "gratitude" <;>
    cases h2 : strIncludes (toLowerStr t) "thankful" <;>
      cases h3 : strIncludes (toLowerStr t) "appreciate" <;>
        simp [groupMatch, gratitudeKeywords, h1, h2, h3]

theorem groupMatch_creative (t : String) :
    (strIncludes (toLowerStr t) "creative" || strIncludes (toLowerStr t) "art" ||
      strIncludes (toLowerStr t) "create") = groupMatch t creativeKeywords := by
  cases h1 : strIncludes (toLowerStr t) "creative" <;>
    cases h2 : strIncludes (toLowerStr t) "art" <;>
      cases h3 : strIncludes (toLowerStr t) "create" <;>
        simp [groupMatch, creativeKeywords, h1, h2, h3]

theorem groupMatch_fitness (t : String) :
    (strIncludes (toLowerStr t) "fitness" || strIncludes (toLowerStr t) "workout" ||
      strIncludes (toLowerStr t) "health") = groupMatch t fitnessKeywords := by
  cases h1 : strIncludes (toLowerStr t) "fitness" <;>
    cases h2 : strIncludes (toLowerStr t) "workout" <;>
      cases h3 : strIncludes (toLowerStr t) "health" <;>
        simp [groupMatch, fitnessKeywords, h1, h2, h3]

/-- The chained-conditional resolver agrees with first-match-wins over
the priority-ordered keyword table: its result is the head of the
matching-group list, or the generic theme when no group matches. -/
theorem getChallengeTheme_eq_headD (t : String) :
    getChallengeTheme t = (matchingGroups t).headD genericTheme := by
  have e1 := groupMatch_peace t
  have e2 := groupMatch_adventure t
  have e3 := groupMatch_gratitude t
  have e4 := groupMatch_creative t
  have e5 := groupMatch_fitness t
  simp only [getChallengeTheme, e1, e2, e3, e4, e5]
  cases h1 : groupMatch t peaceKeywords <;>
    cases h2 : groupMatch t adventureKeywords <;>
      cases h3 : groupMatch t gratitudeKeywords <;>
        cases h4 : groupMatch t creativeKeywords <;>
          cases h5 : groupMatch t fitnessKeywords <;>
            simp [matchingGroups, themeTable, h1, h2, h3, h4, h5]

/-- C2: for every title in which keywords of two or more theme groups
appear, the Theme Resolver returns the theme of the group that comes
first in the fixed priority order (peace, adventure, gratitude,
creative, fitness); in particular "Peaceful Adventure" resolves to the
peace theme. -/
theorem c2_priority_first_match_wins (t : String)
    (h : 2 ≤ (matchingGroups t).length) :
    (∃ g rest, matchingGroups t = g :: rest ∧ getChallengeTheme t = g) ∧
    getChallengeTheme "Peaceful Adventure" = peaceTheme := by
  refine ⟨?_, by decide⟩
  rcases hm : matchingGroups t with _ | ⟨g, rest⟩
  · rw [hm] at h; simp at h
  · exact ⟨g, rest, rfl, by rw [getChallengeTheme_eq_headD, hm]; rfl⟩

theorem c2_witness :
    2 ≤ (matchingGroups "Peaceful Adventure").length ∧
    ((∃ g rest, matchingGroups "Peaceful Adventure" = g :: rest ∧
        getChallengeTheme "Peaceful Adventure" = g) ∧
      getChallengeTheme "Peaceful Adventure" = peaceTheme) :=
  ⟨by decide, c2_priority_first_match_wins "Peaceful Adventure" (by decide)⟩

/-- C3: for every title containing, as a case-insensitive substring at
any position, a keyword belonging to exactly one theme group, the Theme
Resolver returns the theme of that group; e.g. "Morning Meditation
Challenge" and "MINDFUL Monday" both resolve to the peace theme. -/
theorem c3_unique_group_resolves (t : String) (g : ThemeCopy)
    (h : matchingGroups t = [g]) :
    getChallengeTheme t = g ∧
    getChallengeTheme "Morning Meditation Challenge" = peaceTheme ∧
    getChallengeTheme "MINDFUL Monday" = peaceTheme := by
  refine ⟨?_, by decide, by decide⟩
  rw [getChallengeTheme_eq_headD, h]
  rfl

theorem c3_witness :
    matchingGroups "MINDFUL Monday" = [peaceTheme] ∧
    (getChallengeTheme "MINDFUL Monday" = peaceTheme ∧
      getChallengeTheme "Morning Meditation Challenge" = peaceTheme ∧
      getChallengeTheme "MINDFUL Monday" = peaceTheme) :=
  ⟨by decide, c3_unique_group_resolves "MINDFUL Monday" peaceTheme (by decide)⟩

/-- C4: the Theme Resolver is total (a Lean function over all strings,
with no failing operation): every title matching no keyword group
resolves to the generic fallback theme, and in particular the empty
title resolves to the fallback theme. (A `null` title is excluded by
the type given in the source: `getChallengeTheme` takes a `string`.) -/
theorem c4_total_fallback (t : String) (h : matchingGroups t = []) :
    getChallengeTheme t = genericTheme ∧
    getChallengeTheme "" = genericTheme ∧
    getChallengeTheme "Random Challenge" = genericTheme := by
  refine ⟨?_, by decide, by decide⟩
  rw [getChallengeTheme_eq_headD, h]
  rfl

theorem c4_witness :
    matchingGroups "Random Challenge" = [] ∧
    (getChallengeTheme "Random Challenge" = genericTheme ∧
      getChallengeTheme "" = genericTheme ∧
      getChallengeTheme "Random Challenge" = genericTheme) :=
  ⟨by decide, c4_total_fallback "Random Challenge" (by decide)⟩

theorem string_eq_empty_iff (s : String) : s = "" ↔ s.data = [] := by
  constructor
  · intro h; rw [h]
  · intro h
    cases s with
    | mk l =>
      have h2 : l = [] := h
      rw [h2]

theorem jsTruthyStr_eq_false_iff (s : String) :
    jsTruthyStr s = false ↔ s = "" := by
  rw [string_eq_empty_iff]
  cases s with
  | mk l => cases l <;> simp [jsTruthyStr]

/-- The Submission Builder rejects exactly the drafts whose trimmed
text is empty and whose image reference is falsy (`null` or the empty
string). -/
theorem buildSubmission_eq_none_iff (c : ChallengeCard)
    (pt : ParticipationType) (text : String) (img : Option String) (now : Nat) :
    buildSubmission c pt text img now = none ↔
      (trimStr text = "" ∧ jsTruthyOptStr img = false) := by
  have hts := jsTruthyStr_eq_false_iff (trimStr text)
  cases h1 : jsTruthyStr (trimStr text) <;> cases h2 : jsTruthyOptStr img <;>
    simp [buildSubmission, h1, h2, ← hts]

/-- A concrete challenge card used to instantiate the builder theorems. -/
def sampleCard : ChallengeCard where
  id := 1
  title := "Morning Meditation Challenge"
  subtitle := "Find your calm"
  image := "🧘"
  gradient := ["#8B5CF6", "#EC4899"]

/-- C1: the Submission Builder fails with `EmptySubmission` if and only
if the trimmed draft text is empty and no image reference is present;
in every other case it produces a `ChallengeSubmission` record, and an
image-only draft yields a record with empty text and a populated image
reference. (Image references, when present, are genuine non-empty
strings; the empty-string edge is settled separately.) -/
theorem c1_empty_submission_iff (c : ChallengeCard) (pt : ParticipationType)
    (text : String) (img : Option String) (now : Nat)
    (himg : img = none ∨ ∃ s, img = some s ∧ s ≠ "") :
    (buildSubmission c pt text img now = none ↔ (trimStr text = "" ∧ img = none)) ∧
    (¬(trimStr text = "" ∧ img = none) →
      ∃ sub, buildSubmission c pt text img now = some sub) ∧
    (∀ s, img = some s → trimStr text = "" →
      ∃ sub, buildSubmission c pt text img now = some sub ∧
        sub.text = "" ∧ sub.image = some s) := by
  have hiff := buildSubmission_eq_none_iff c pt text img now
  rcases himg with rfl | ⟨s, rfl, hs⟩
  · have hiff2 : buildSubmission c pt text none now = none ↔ trimStr text = "" := by
      simpa [jsTruthyOptStr] using hiff
    refine ⟨by rw [hiff2]; simp, ?_, ?_⟩
    · intro hne
      rcases hb : buildSubmission c pt text none now with _ | sub
      · exact absurd ⟨hiff2.mp hb, rfl⟩ hne
      · exact ⟨sub, rfl⟩
    · intro s hsome
      cases hsome
  · have htr : jsTruthyStr s = true := by
      cases hb : jsTruthyStr s
      · exact absurd ((jsTruthyStr_eq_false_iff s).mp hb) hs
      · rfl
    have hguard : jsTruthyOptStr (some s) = true := by
      simpa [jsTruthyOptStr] using htr
    refine ⟨?_, ?_, ?_⟩
    · rw [hiff]
      simp [hguard]
    · intro _
      rcases hb : buildSubmission c pt text (some s) now with _ | sub
      · rw [hiff] at hb
        simp [hguard] at hb
      · exact ⟨sub, rfl⟩
    · intro s0 h0 htrim
      have hss : s = s0 := Option.some.inj h0
      have hfalse : jsTruthyStr (trimStr text) = false := by rw [htrim]; decide
      refine ⟨mkSubmission c pt text (some s) now, ?_, ?_, ?_⟩
      · simp [buildSubmission, hfalse, hguard]
      · simpa [mkSubmission] using htrim
      · rw [← hss]
        simp [mkSubmission, hguard]

theorem c1_witness :
    ((some "img://photo.jpg" : Option String) = none ∨
      ∃ s, (some "img://photo.jpg" : Option String) = some s ∧ s ≠ "") ∧
    ((buildSubmission sampleCard ParticipationType.individual "   "
        (some "img://photo.jpg") 7 = none ↔
      (trimStr "   " = "" ∧ (some "img://photo.jpg" : Option String) = none)) ∧
    (¬(trimStr "   " = "" ∧ (some "img://photo.jpg" : Option String) = none) →
      ∃ sub, buildSubmission sampleCard ParticipationType.individual "   "
        (some "img://photo.jpg") 7 = some sub) ∧
    (∀ s, (some "img://photo.jpg" : Option String) = some s → trimStr "   " = "" →
      ∃ sub, buildSubmission sampleCard ParticipationType.individual "   "
        (some "img://photo.jpg") 7 = some sub ∧
        sub.text = "" ∧ sub.image = some s)) := by
  have hne : ("img://photo.jpg" : String) ≠ "" := by decide
  refine ⟨Or.inr ⟨"img://photo.jpg", rfl, hne⟩, ?_⟩
  exact c1_empty_submission_iff sampleCard ParticipationType.individual "   "
    (some "img://photo.jpg") 7 (Or.inr ⟨"img://photo.jpg", rfl, hne⟩)

/-- C5: every record the Submission Builder accepts has text equal to
the trimmed draft text, all engagement counters zero, the participation
mode passed in, challenge id/title/icon copied verbatim, the identifier
generated from the construction-time clock reading, that reading as its
creation timestamp, and the fixed placeholder author. -/
theorem c5_built_record_fields (c : ChallengeCard) (pt : ParticipationType)
    (text : String) (img : Option String) (now : Nat) (sub : ChallengeSubmission)
    (h : buildSubmission c pt text img now = some sub) :
    sub.text = trimStr text ∧
    sub.likes = 0 ∧ sub.comments = 0 ∧ sub.shares = 0 ∧
    sub.participationType = pt ∧
    sub.challengeId = c.id ∧ sub.challengeTitle = c.title ∧
    sub.challengeIcon = c.image ∧
    sub.id = toString now ∧ sub.timestamp = now ∧
    sub.author = placeholderAuthor := by
  unfold buildSubmission at h
  split at h
  · cases h
  · injection h with h
    rw [← h]
    exact ⟨rfl, rfl, rfl, rfl, rfl, rfl, rfl, rfl, rfl, rfl, rfl⟩

theorem c5_witness :
    buildSubmission sampleCard ParticipationType.team "hello world " none 42 =
      some (mkSubmission sampleCard ParticipationType.team "hello world " none 42) ∧
    ((mkSubmission sampleCard ParticipationType.team "hello world " none 42).text =
        trimStr "hello world " ∧
      (mkSubmission sampleCard ParticipationType.team "hello world " none 42).likes = 0 ∧
      (mkSubmission sampleCard ParticipationType.team "hello world " none 42).comments = 0 ∧
      (mkSubmission sampleCard ParticipationType.team "hello world " none 42).shares = 0 ∧
      (mkSubmission sampleCard ParticipationType.team "hello world " none 42).participationType =
        ParticipationType.team ∧
      (mkSubmission sampleCard ParticipationType.team "hello world " none 42).challengeId =
        sampleCard.id ∧
      (mkSubmission sampleCard ParticipationType.team "hello world " none 42).challengeTitle =
        sampleCard.title ∧
      (mkSubmission sampleCard ParticipationType.team "hello world " none 42).challengeIcon =
        sampleCard.image ∧
      (mkSubmission sampleCard ParticipationType.team "hello world " none 42).id =
        toString 42 ∧
      (mkSubmission sampleCard ParticipationType.team "hello world " none 42).timestamp = 42 ∧
      (mkSubmission sampleCard ParticipationType.team "hello world " none 42).author =
        placeholderAuthor) :=
  ⟨by decide,
    c5_built_record_fields sampleCard ParticipationType.team "hello world " none 42
      (mkSubmission sampleCard ParticipationType.team "hello world " none 42) (by decide)⟩

/-- C10: the Submission Builder treats an empty-string image reference
exactly like an absent one: with empty trimmed text it is rejected as
`EmptySubmission`, an accepted record built from it carries an absent
(`none`) image field, and in fact the output of the builder on an
empty-string reference coincides with its output on no reference. -/
theorem c10_empty_string_image (c : ChallengeCard) (pt : ParticipationType)
    (text : String) (now : Nat) :
    (trimStr text = "" → buildSubmission c pt text (some "") now = none) ∧
    (∀ sub, buildSubmission c pt text (some "") now = some sub → sub.image = none) ∧
    buildSubmission c pt text (some "") now = buildSubmission c pt text none now := by
  have himg : jsTruthyOptStr (some "") = false := by decide
  refine ⟨?_, ?_, ?_⟩
  · intro htrim
    have hfalse : jsTruthyStr (trimStr text) = false := by rw [htrim]; decide
    simp [buildSubmission, hfalse, himg]
  · intro sub h
    unfold buildSubmission at h
    split at h
    · cases h
    · injection h with h
      rw [← h]
      simp [mkSubmission, himg]
  · have hemp : jsTruthyStr "" = false := by decide
    cases h1 : jsTruthyStr (trimStr text) <;>
      simp [buildSubmission, mkSubmission, himg, hemp, jsTruthyOptStr, h1]

theorem c10_witness :
    trimStr "  " = "" ∧
    buildSubmission sampleCard ParticipationType.individual "  " (some "") 3 = none :=
  ⟨by decide, (c10_empty_string_image sampleCard ParticipationType.individual "  " 3).1 (by decide)⟩

/-- C9 counterexample: two distinct submissions (different text) built
at the same wall-clock millisecond receive the same identifier — the
identifier is `Date.now().toString()`, so generation alone does not
guarantee uniqueness within the process lifetime. -/
theorem c9_counterexample :
    buildSubmission sampleCard ParticipationType.individual "a" none 5 ≠
      buildSubmission sampleCard ParticipationType.individual "b" none 5 ∧
    (buildSubmission sampleCard ParticipationType.individual "a" none 5).map
        ChallengeSubmission.id =
      (buildSubmission sampleCard ParticipationType.individual "b" none 5).map
        ChallengeSubmission.id := by
  decide

/-- C9 (amended): the identifier of every built record is exactly the
decimal string of the wall-clock reading taken at build time (and equals
the decimal string of the timestamp of the record itself), so any two
submissions built at the same clock reading share an identifier;
distinct identifiers therefore require distinct clock readings, which
the builder itself does not enforce. -/
theorem c9_id_from_clock (c : ChallengeCard) (pt : ParticipationType)
    (text : String) (img : Option String) (now : Nat) (sub : ChallengeSubmission)
    (h : buildSubmission c pt text img now = some sub) :
    sub.id = toString now ∧
    sub.id = toString sub.timestamp ∧
    (∀ (c2 : ChallengeCard) (pt2 : ParticipationType) (text2 : String)
        (img2 : Option String) (sub2 : ChallengeSubmission),
      buildSubmission c2 pt2 text2 img2 now = some sub2 → sub2.id = sub.id) := by
  unfold buildSubmission at h
  split at h
  · cases h
  · injection h with h
    rw [← h]
    refine ⟨rfl, rfl, ?_⟩
    intro c2 pt2 text2 img2 sub2 h2
    unfold buildSubmission at h2
    split at h2
    · cases h2
    · injection h2 with h2
      rw [← h2]
      rfl

theorem c9_witness :
    buildSubmission sampleCard ParticipationType.individual "a" none 5 =
      some (mkSubmission sampleCard ParticipationType.individual "a" none 5) ∧
    ((mkSubmission sampleCard ParticipationType.individual "a" none 5).id = toString 5 ∧
      (mkSubmission sampleCard ParticipationType.individual "a" none 5).id =
        toString (mkSubmission sampleCard ParticipationType.individual "a" none 5).timestamp ∧
      (∀ (c2 : ChallengeCard) (pt2 : ParticipationType) (text2 : String)
          (img2 : Option String) (sub2 : ChallengeSubmission),
        buildSubmission c2 pt2 text2 img2 5 = some sub2 →
          sub2.id = (mkSubmission sampleCard ParticipationType.individual "a" none 5).id)) :=
  ⟨by decide,
    c9_id_from_clock sampleCard ParticipationType.individual "a" none 5
      (mkSubmission sampleCard ParticipationType.individual "a" none 5) (by decide)⟩

/-- The lifecycle invariant: the number of in-flight submissions is one
exactly while the screen is in the Submitting state, and zero
otherwise. -/
def lifecycleInv (st : Screen) : Prop :=
  st.inFlight.length = if st.isSubmitting then 1 else 0

theorem lifecycleInv_init : lifecycleInv initScreen := by
  simp [lifecycleInv, initScreen]

theorem lifecycleInv_step (c : ChallengeCard) (pt : ParticipationType)
    (st : Screen) (e : Event) (h : lifecycleInv st) :
    lifecycleInv (step c pt st e).1 := by
  obtain ⟨t0, i0, b0, cl0, f0⟩ := st
  unfold lifecycleInv at h ⊢
  cases e with
  | setText s =>
      simp only [step]
      split <;> exact h
  | setImage img =>
      simp only [step]
      split <;> exact h
  | pressClose =>
      simp only [step]
      split <;> exact h
  | pressSubmit now =>
      simp only [step]
      split
      · exact h
      · split
        · exact h
        · rename_i hguard _
          simp only [Bool.or_eq_true, not_or, Bool.not_eq_true] at hguard
          simp only [hguard.2, if_neg Bool.false_ne_true] at h
          simp [List.length_append, h]
  | acceptOk =>
      cases f0 with
      | nil => simp only [step]; exact h
      | cons s rest =>
          simp only [step, List.length_cons] at h ⊢
          cases b0
          · simp at h
          · simp at h ⊢; exact h
  | acceptFail =>
      cases f0 with
      | nil => simp only [step]; exact h
      | cons s rest =>
          simp only [step, List.length_cons] at h ⊢
          cases b0
          · simp at h
          · simp at h ⊢; exact h

theorem lifecycleInv_run (c : ChallengeCard) (pt : ParticipationType)
    (es : List Event) : lifecycleInv (run c pt es) := by
  suffices hgen : ∀ st, lifecycleInv st →
      lifecycleInv (es.foldl (fun st e => (step c pt st e).1) st) from
    hgen initScreen lifecycleInv_init
  induction es with
  | nil => intro st h; exact h
  | cons e es ih => intro st h; exact ih _ (lifecycleInv_step c pt st e h)

/-- C8: in every reachable state of the submission lifecycle of the screen
at most one submission is in flight, and while the state is Submitting
the submit control is disabled, so pressing submit again changes
nothing and starts no second submission. -/
theorem c8_single_submission_in_flight :
    (∀ (c : ChallengeCard) (pt : ParticipationType) (es : List Event),
      ((run c pt es).inFlight).length ≤ 1) ∧
    (∀ (c : ChallengeCard) (pt : ParticipationType) (st : Screen) (now : Nat),
      step c pt { st with isSubmitting := true } (Event.pressSubmit now) =
        ({ st with isSubmitting := true }, [])) := by
  constructor
  · intro c pt es
    have h := lifecycleInv_run c pt es
    unfold lifecycleInv at h
    rw [h]
    cases (run c pt es).isSubmitting <;> simp
  · intro c pt st now
    simp [step]

/-- C6: a draft rejected as `EmptySubmission` is rejected before any
record construction: the step produces only the validation alert, the
screen state is unchanged (still Idle, draft intact, nothing dispatched,
no transition to Submitting), and the Submission Builder returns `none`
without constructing a record, so no identifier or timestamp is
allocated. -/
theorem c6_rejection_before_construction (c : ChallengeCard)
    (pt : ParticipationType) (st : Screen) (now : Nat)
    (hcl : st.closed = false) (hsub : st.isSubmitting = false)
    (ht : trimStr st.text = "") (hi : jsTruthyOptStr st.selectedImage = false) :
    step c pt st (Event.pressSubmit now) = (st, [Effect.alertEmpty]) ∧
    buildSubmission c pt st.text st.selectedImage now = none := by
  have hfalse : jsTruthyStr (trimStr st.text) = false := by rw [ht]; decide
  constructor
  · simp [step, hcl, hsub, hfalse, hi]
  · simp [buildSubmission, hfalse, hi]

theorem c6_witness :
    initScreen.closed = false ∧ initScreen.isSubmitting = false ∧
    trimStr initScreen.text = "" ∧ jsTruthyOptStr initScreen.selectedImage = false ∧
    (step sampleCard ParticipationType.individual initScreen (Event.pressSubmit 9) =
        (initScreen, [Effect.alertEmpty]) ∧
      buildSubmission sampleCard ParticipationType.individual
        initScreen.text initScreen.selectedImage 9 = none) :=
  ⟨rfl, rfl, by decide, rfl,
    c6_rejection_before_construction sampleCard ParticipationType.individual
      initScreen 9 rfl rfl (by decide) rfl⟩

/-- C7: when the external acceptance collaborator reports failure
during a submission, the screen transitions back to Idle
(`isSubmitting` false), the draft text and selected image are preserved
verbatim, a failure notification is surfaced, and the screen is not
dismissed (`onClose` is not called and `closed` is unchanged). -/
theorem c7_acceptance_failure_preserves_draft (c : ChallengeCard)
    (pt : ParticipationType) (st : Screen) (s : ChallengeSubmission)
    (rest : List ChallengeSubmission) :
    (step c pt { st with inFlight := s :: rest } Event.acceptFail).1 =
      { st with isSubmitting := false, inFlight := rest } ∧
    (step c pt { st with inFlight := s :: rest } Event.acceptFail).1.text = st.text ∧
    (step c pt { st with inFlight := s :: rest } Event.acceptFail).1.selectedImage =
      st.selectedImage ∧
    (step c pt { st with inFlight := s :: rest } Event.acceptFail).1.isSubmitting = false ∧
    (step c pt { st with inFlight := s :: rest } Event.acceptFail).1.closed = st.closed ∧
    (step c pt { st with inFlight := s :: rest } Event.acceptFail).2 =
      [Effect.callOnSubmit s, Effect.alertError] ∧
    Effect.alertError ∈ (step c pt { st with inFlight := s :: rest } Event.acceptFail).2 ∧
    Effect.callOnClose ∉ (step c pt { st with inFlight := s :: rest } Event.acceptFail).2 := by
  obtain ⟨t0, i0, b0, cl0, f0⟩ := st
  refine ⟨rfl, rfl, rfl, rfl, rfl, rfl, ?_, ?_⟩
  · simp [step]
  · simp [step]
